import Mathlib

/-
  Verification of the lyrics-fetch repository (Go, two near-duplicate
  program variants).  The development shallowly embeds the lyrics
  retrieval core: the apiResponse data model, the duration computation
  and serialization in songDuration and retrieveLyrics, and the two
  retrieveLyrics variants (the retrying one and the single-call one in
  main.go).  The HTTP client (the Client type with GetWithTimeout) is
  not among the sources, so one call of it is modelled from the spec as
  an abstract per-attempt outcome; the retrieval policy is a function of
  the sequence of those outcomes.  Machine floats are modelled as exact
  rationals; time.Duration (int64 nanoseconds) as an integer.
-/

namespace LyricsFetch

/-- The apiResponse struct shared by both program variants: the decoded
JSON payload of the LRCLIB lookup endpoint.  Go float64 fields are
modelled as rationals, Go zero values are 0, false and the empty
string. -/
structure ApiResponse where
  id : Int
  trackName : String
  artistName : String
  albumName : String
  duration : ℚ
  instrumental : Bool
  plainLyrics : String
  syncedLyrics : String
deriving Repr, DecidableEq

/-- The Go expression new(apiResponse): every field at its zero value. -/
def ApiResponse.zero : ApiResponse :=
  { id := 0, trackName := "", artistName := "", albumName := ""
    duration := 0, instrumental := false, plainLyrics := "", syncedLyrics := "" }

/-- A JSON response body, field by field: none models a field absent
from the JSON object, some v a field present with value v. -/
structure ApiBody where
  id : Option Int := none
  trackName : Option String := none
  artistName : Option String := none
  albumName : Option String := none
  duration : Option ℚ := none
  instrumental : Option Bool := none
  plainLyrics : Option String := none
  syncedLyrics : Option String := none
deriving Repr, DecidableEq

/-- Modelled from the spec: the Lookup Client (the Client value built by
New with method GetWithTimeout, whose source file is not part of the
sources here) deserializes the JSON response body into the
caller-supplied apiResponse value.  With Go encoding/json semantics,
decoding into an existing struct leaves every field that is absent from
the body at its current value. -/
def decodeInto (res : ApiResponse) (b : ApiBody) : ApiResponse :=
  { id := b.id.getD res.id
    trackName := b.trackName.getD res.trackName
    artistName := b.artistName.getD res.artistName
    albumName := b.albumName.getD res.albumName
    duration := b.duration.getD res.duration
    instrumental := b.instrumental.getD res.instrumental
    plainLyrics := b.plainLyrics.getD res.plainLyrics
    syncedLyrics := b.syncedLyrics.getD res.syncedLyrics }

/-- Modelled from the spec: one GetWithTimeout call of the Lookup
Client (not among the sources) either fails with a non-nil Go error,
carrying whatever status code the client reports (0 when no usable
status exists, e.g. a transport failure), or returns a nil error
together with the HTTP status code and the parsed JSON body. -/
inductive ClientOutcome where
  | failure (retCode : Nat) (msg : String)
  | success (retCode : Nat) (body : ApiBody)
deriving Repr, DecidableEq

/-- The retries constant of the retrying variant. -/
def retries : Nat := 3

/-- The not-found error text of the retrying variant, built as in
fmt.Errorf with the artist, track and album arguments (the \x27
escapes are the single-quote characters of the Go format string). -/
def notFoundMsg (artist track album : String) : String :=
  "no lyrics found for song \x27" ++ artist ++ " - " ++ track ++ " (" ++ album ++ ")\x27"

/-- The exhaustion error text of the retrying variant: only the retry
count is formatted in; no underlying error appears in the format
arguments. -/
def exhaustedMsg (n : Nat) : String :=
  "failed to retrieve lyrics from LRCLIB API after " ++ toString n ++ " retries"

/-- Go conversion of a float64 to an integer type: truncation toward
zero, modelled on rationals (for a negative argument the truncation is
the negated floor of the negation). -/
def gotrunc (q : ℚ) : ℤ :=
  if 0 ≤ q then q.floor else -(Rat.floor (-q))

/-- Nanoseconds per second, the time.Second constant. -/
def nsPerSecond : ℤ := 1000000000

/-- The strings.ToLower call at the top of the songDuration switch:
per-character lowercasing of the format string. -/
def lowerString (s : String) : String := String.mk (s.data.map Char.toLower)

/-- The songDuration method: dispatch on the lowercased format string
exactly as the Go switch does, with the external audio decoder
abstracted by its reported duration dur (float64 seconds, modelled as
an exact rational).  The Go result is time.Second * time.Duration(dur),
a time.Duration in nanoseconds; time.Duration(dur) truncates the float
toward zero.  Unsupported formats return the error of the default
branch. -/
def songDuration (format : String) (dur : ℚ) : Except String ℤ :=
  match lowerString format with
  | "mp3" => Except.ok (nsPerSecond * gotrunc dur)
  | "aac" => Except.ok (nsPerSecond * gotrunc dur)
  | "mp4" => Except.ok (nsPerSecond * gotrunc dur)
  | "flac" => Except.ok (nsPerSecond * gotrunc dur)
  | "ogg" => Except.ok (nsPerSecond * gotrunc dur)
  | "vorbis" => Except.ok (nsPerSecond * gotrunc dur)
  | "dsd" => Except.ok (nsPerSecond * gotrunc dur)
  | "dsf" => Except.ok (nsPerSecond * gotrunc dur)
  | _ => Except.error "unsupported format"

/-- The Seconds method of time.Duration, exact over the rationals: the
duration in nanoseconds divided by one billion.  For whole-second
durations below 2 to the 53rd this coincides exactly with the Go
float64 computation. -/
def durationSecondsQ (d : ℤ) : ℚ := (d : ℚ) / 1000000000

/-- Rounding to the nearest integer with ties to the even neighbour,
the rounding fmt.Sprintf with verb percent dot-zero f applies to an
exactly representable float64 argument. -/
def roundHalfEven (q : ℚ) : ℤ :=
  if q - q.floor < 1 / 2 then q.floor
  else if 1 / 2 < q - q.floor then q.floor + 1
  else if q.floor % 2 = 0 then q.floor else q.floor + 1

/-- The formatting fmt.Sprintf with the percent dot-zero f verb applies
to the seconds value: round to the nearest integer (ties to even) and
print with zero decimal places. -/
def fmtDotZero (q : ℚ) : String := toString (roundHalfEven q)

/-- Follows the spec words, for comparison with the code: the duration
rounded to the nearest whole second and serialized with zero decimal
places (Mathlib rounding, ties upward; no tie arises at the inputs it
is compared on). -/
def specRoundedDuration (dur : ℚ) : String := toString ((dur + 1 / 2).floor)

/-- The url.Values built at the top of retrieveLyrics in both variants:
track, artist and album name verbatim, and the duration formatted from
Seconds with the percent dot-zero f verb. -/
def lookupQuery (artist album track : String) (d : ℤ) : List (String × String) :=
  [("track_name", track), ("artist_name", artist), ("album_name", album),
   ("duration", fmtDotZero (durationSecondsQ d))]

/-- Everything observable about one retrieveLyrics invocation: the two
Go return values (the lyrics string and the error, none being nil), the
number of GetWithTimeout calls made, the number of one-second
time.Sleep calls executed, the number of errLog.Error calls in the
retry loop, the apiResponse value res at the moment of return, and the
query that was sent. -/
structure RunResult where
  lyrics : String
  err : Option String
  calls : Nat
  sleeps : Nat
  errLogs : Nat
  res : ApiResponse
  query : List (String × String)
deriving Repr, DecidableEq

/-- The observables of a run that the Go caller or the wall clock can
distinguish: return values and the three counters.  The internal res
object is excluded. -/
def RunResult.obs (r : RunResult) : String × Option String × Nat × Nat × Nat :=
  (r.lyrics, r.err, r.calls, r.sleeps, r.errLogs)

namespace Part000

/-- The retry loop of the retrying variant (the unnamed source file):
one list element per remaining loop iteration.  The apiResponse value
res is allocated once by the caller and threaded through, exactly as
the Go code reuses the single res pointer across attempts.  A non-nil
error with code 404 returns the not-found error at once; any other
non-nil error logs, sleeps one second unconditionally and continues; a
nil error decodes into res and classifies: instrumental returns empty
lyrics and nil error, non-empty syncedLyrics returns it, and otherwise
the loop falls through to the next attempt with no log and no sleep. -/
def retrieveLoop (artist album track : String) (query : List (String × String)) :
    List ClientOutcome → ApiResponse → Nat → Nat → Nat → RunResult
  | [], res, calls, sleeps, errLogs =>
      { lyrics := "", err := some (exhaustedMsg retries)
        calls := calls, sleeps := sleeps, errLogs := errLogs, res := res, query := query }
  | o :: rest, res, calls, sleeps, errLogs =>
      match o with
      | ClientOutcome.failure retCode _msg =>
          if retCode = 404 then
            { lyrics := "", err := some (notFoundMsg artist track album)
              calls := calls + 1, sleeps := sleeps, errLogs := errLogs, res := res, query := query }
          else
            retrieveLoop artist album track query rest res (calls + 1) (sleeps + 1) (errLogs + 1)
      | ClientOutcome.success _retCode body =>
          let r := decodeInto res body
          if r.instrumental then
            { lyrics := "", err := none
              calls := calls + 1, sleeps := sleeps, errLogs := errLogs, res := r, query := query }
          else if r.syncedLyrics ≠ "" then
            { lyrics := r.syncedLyrics, err := none
              calls := calls + 1, sleeps := sleeps, errLogs := errLogs, res := r, query := query }
          else
            retrieveLoop artist album track query rest r (calls + 1) sleeps errLogs

/-- The retrieveLyrics method of the retrying variant: build the query,
allocate res once with new(apiResponse), and run the loop for i = 0, 1,
2 (retries = 3), the outcome of the i-th GetWithTimeout call being
client i. -/
def retrieveLyrics (artist album track : String) (duration : ℤ)
    (client : Nat → ClientOutcome) : RunResult :=
  retrieveLoop artist album track (lookupQuery artist album track duration)
    [client 0, client 1, client 2] ApiResponse.zero 0 0 0

/-- Follows the spec words, for comparison with the code: the variant
of the retry loop in which the LookupResult is constructed fresh from
each attempt response alone — every decode starts from the zero
apiResponse instead of the reused one. -/
def retrieveLoopFresh (artist album track : String) (query : List (String × String)) :
    List ClientOutcome → ApiResponse → Nat → Nat → Nat → RunResult
  | [], res, calls, sleeps, errLogs =>
      { lyrics := "", err := some (exhaustedMsg retries)
        calls := calls, sleeps := sleeps, errLogs := errLogs, res := res, query := query }
  | o :: rest, res, calls, sleeps, errLogs =>
      match o with
      | ClientOutcome.failure retCode _msg =>
          if retCode = 404 then
            { lyrics := "", err := some (notFoundMsg artist track album)
              calls := calls + 1, sleeps := sleeps, errLogs := errLogs, res := res, query := query }
          else
            retrieveLoopFresh artist album track query rest res (calls + 1) (sleeps + 1) (errLogs + 1)
      | ClientOutcome.success _retCode body =>
          let r := decodeInto ApiResponse.zero body
          if r.instrumental then
            { lyrics := "", err := none
              calls := calls + 1, sleeps := sleeps, errLogs := errLogs, res := r, query := query }
          else if r.syncedLyrics ≠ "" then
            { lyrics := r.syncedLyrics, err := none
              calls := calls + 1, sleeps := sleeps, errLogs := errLogs, res := r, query := query }
          else
            retrieveLoopFresh artist album track query rest r (calls + 1) sleeps errLogs

/-- Follows the spec words: retrieveLyrics with a fresh LookupResult
per attempt. -/
def retrieveLyricsFresh (artist album track : String) (duration : ℤ)
    (client : Nat → ClientOutcome) : RunResult :=
  retrieveLoopFresh artist album track (lookupQuery artist album track duration)
    [client 0, client 1, client 2] ApiResponse.zero 0 0 0

end Part000

namespace MainGo

/-- The error text main.go wraps a non-nil client error in. -/
def failMsg (msg : String) (code : Nat) : String :=
  "failed to retrieve lyrics from LRCLIB API: " ++ msg ++ " (Code: " ++ toString code ++ ")"

/-- The error text main.go returns for a status code other than 200. -/
def nonPositiveMsg (code : Nat) : String :=
  "LRCLIB API returned non-positive response code: " ++ toString code

/-- The retrieveLyrics function of src/main.go: build the query, make
exactly one GetWithTimeout call, return a wrapped error if the call
errs, an error for any status other than 200, and otherwise the decoded
syncedLyrics field (possibly empty) with a nil error.  There is no
loop, no sleep and no retry in this variant. -/
def retrieveLyrics (artist album track : String) (duration : ℤ)
    (outcome : ClientOutcome) : RunResult :=
  let query := lookupQuery artist album track duration
  match outcome with
  | ClientOutcome.failure code msg =>
      { lyrics := "", err := some (failMsg msg code)
        calls := 1, sleeps := 0, errLogs := 0, res := ApiResponse.zero, query := query }
  | ClientOutcome.success code body =>
      let r := decodeInto ApiResponse.zero body
      if code ≠ 200 then
        { lyrics := "", err := some (nonPositiveMsg code)
          calls := 1, sleeps := 0, errLogs := 0, res := r, query := query }
      else
        { lyrics := r.syncedLyrics, err := none
          calls := 1, sleeps := 0, errLogs := 0, res := r, query := query }

end MainGo

end LyricsFetch

open LyricsFetch

/-- The computable Batteries floor of a rational agrees with the
Mathlib floor. -/
theorem ratFloor_eq_floor (q : ℚ) : q.floor = ⌊q⌋ := by
  rw [Rat.floor_def', Rat.floor_def]

/-- On non-negative arguments, Go truncation toward zero is the
floor. -/
theorem gotrunc_of_nonneg (q : ℚ) (h : 0 ≤ q) : gotrunc q = ⌊q⌋ := by
  rw [gotrunc, if_pos h, ratFloor_eq_floor]

/-- Rounding half to even fixes every integer. -/
theorem roundHalfEven_intCast (n : ℤ) : roundHalfEven (n : ℚ) = n := by
  rw [roundHalfEven, ratFloor_eq_floor]
  simp only [Int.floor_intCast, sub_self]
  norm_num

/-- The Seconds value of a whole-second duration is that number of
seconds, exactly. -/
theorem durationSecondsQ_whole (k : ℤ) : durationSecondsQ (nsPerSecond * k) = (k : ℚ) := by
  rw [durationSecondsQ, nsPerSecond]
  push_cast
  field_simp

/-- Formatting a whole number of seconds with the percent dot-zero f
verb prints its decimal digits. -/
theorem fmtDotZero_intCast (k : ℤ) : fmtDotZero (k : ℚ) = toString k := by
  rw [fmtDotZero, roundHalfEven_intCast]

/-- The spec-words rounding is the Mathlib round function. -/
theorem specRoundedDuration_eq_round (dur : ℚ) :
    specRoundedDuration dur = toString (round dur) := by
  rw [specRoundedDuration, ratFloor_eq_floor, round_eq]

/-- The query sent is not changed by the retry loop. -/
theorem retrieveLoop_query (artist album track : String) (query : List (String × String)) :
    ∀ (outs : List ClientOutcome) (res : ApiResponse) (calls sleeps errLogs : Nat),
      (Part000.retrieveLoop artist album track query outs res calls sleeps errLogs).query = query := by
  intro outs
  induction outs with
  | nil => intro res calls sleeps errLogs; rfl
  | cons o rest ih =>
    intro res calls sleeps errLogs
    cases o with
    | failure code msg =>
      by_cases h404 : code = 404
      · simp [Part000.retrieveLoop, h404]
      · simp only [Part000.retrieveLoop, if_neg h404]
        exact ih _ _ _ _
    | success code body =>
      simp only [Part000.retrieveLoop]
      by_cases hins : (decodeInto res body).instrumental
      · simp [hins]
      · by_cases hs : (decodeInto res body).syncedLyrics = ""
        · simp only [if_neg hins, hs, ne_eq, not_true_eq_false, if_false]
          exact ih _ _ _ _
        · simp [hins, hs]

/-- The duration entry of the query of the retrying variant. -/
theorem retrieveLyrics_duration_entry (artist album track : String) (d : ℤ)
    (client : Nat → ClientOutcome) :
    List.lookup "duration" (Part000.retrieveLyrics artist album track d client).query
      = some (fmtDotZero (durationSecondsQ d)) := by
  rw [Part000.retrieveLyrics, retrieveLoop_query]
  rfl

/-- Every Except.ok value of songDuration is the truncated duration in
nanoseconds. -/
theorem songDuration_ok (format : String) (dur : ℚ) (d : ℤ)
    (h : songDuration format dur = Except.ok d) : d = nsPerSecond * gotrunc dur := by
  rw [songDuration] at h
  split at h <;> simp_all

/-- C1: when the first GetWithTimeout attempt reports a 404 status
code — reported, at this call site, through a non-nil error carrying
retCode 404, the only channel on which retrieveLyrics inspects the
status — the retrying variant returns the not-found outcome at once:
empty lyrics, the not-found error, exactly one network call and no
inter-attempt delay, regardless of the remaining attempt budget. -/
theorem c1_notFound_terminal_on_404 (artist album track : String) (d : ℤ)
    (client : Nat → ClientOutcome) (msg : String)
    (h : client 0 = ClientOutcome.failure 404 msg) :
    (Part000.retrieveLyrics artist album track d client).lyrics = "" ∧
    (Part000.retrieveLyrics artist album track d client).err
      = some (notFoundMsg artist track album) ∧
    (Part000.retrieveLyrics artist album track d client).calls = 1 ∧
    (Part000.retrieveLyrics artist album track d client).sleeps = 0 := by
  simp [Part000.retrieveLyrics, Part000.retrieveLoop, h]

/-- Witness for C1: a concrete 404 outcome on the first attempt. -/
theorem c1_notFound_terminal_on_404_witness :
    (Part000.retrieveLyrics "Artist" "Album" "Track" 125000000000
        (fun _ => ClientOutcome.failure 404 "not found")).lyrics = "" ∧
    (Part000.retrieveLyrics "Artist" "Album" "Track" 125000000000
        (fun _ => ClientOutcome.failure 404 "not found")).err
      = some (notFoundMsg "Artist" "Track" "Album") ∧
    (Part000.retrieveLyrics "Artist" "Album" "Track" 125000000000
        (fun _ => ClientOutcome.failure 404 "not found")).calls = 1 ∧
    (Part000.retrieveLyrics "Artist" "Album" "Track" 125000000000
        (fun _ => ClientOutcome.failure 404 "not found")).sleeps = 0 :=
  c1_notFound_terminal_on_404 "Artist" "Album" "Track" 125000000000
    (fun _ => ClientOutcome.failure 404 "not found") "not found" rfl

/-- C2 as stated is false on the code: three successful responses with
instrumental false and empty syncedLyrics make exactly three network
calls and return the exhaustion error, but the fall-through branch of
the loop never sleeps, so there are zero inter-attempt delays, not
two. -/
theorem c2_counterexample_no_delays :
    (Part000.retrieveLyrics "Artist" "Album" "Track" 0
        (fun _ => ClientOutcome.success 200 {})).err = some (exhaustedMsg 3) ∧
    (Part000.retrieveLyrics "Artist" "Album" "Track" 0
        (fun _ => ClientOutcome.success 200 {})).calls = 3 ∧
    (Part000.retrieveLyrics "Artist" "Album" "Track" 0
        (fun _ => ClientOutcome.success 200 {})).sleeps = 0 ∧
    (Part000.retrieveLyrics "Artist" "Album" "Track" 0
        (fun _ => ClientOutcome.success 200 {})).sleeps ≠ 2 := by
  decide

/-- The retry loop on a list of exclusively non-conclusive successes
(decoded instrumental false and decoded syncedLyrics empty over a
non-conclusive res) consumes the whole list, makes one call per
element, and neither sleeps nor logs. -/
theorem retrieveLoop_all_nonconclusive (artist album track : String)
    (query : List (String × String)) :
    ∀ (outs : List ClientOutcome) (res : ApiResponse) (calls sleeps errLogs : Nat),
      res.instrumental = false → res.syncedLyrics = "" →
      (∀ o ∈ outs, ∃ c b, o = ClientOutcome.success c b ∧
          b.instrumental.getD false = false ∧ b.syncedLyrics.getD "" = "") →
      (Part000.retrieveLoop artist album track query outs res calls sleeps errLogs).err
          = some (exhaustedMsg retries) ∧
      (Part000.retrieveLoop artist album track query outs res calls sleeps errLogs).calls
          = calls + outs.length ∧
      (Part000.retrieveLoop artist album track query outs res calls sleeps errLogs).sleeps
          = sleeps ∧
      (Part000.retrieveLoop artist album track query outs res calls sleeps errLogs).errLogs
          = errLogs := by
  intro outs
  induction outs with
  | nil => intro res calls sleeps errLogs _ _ _; exact ⟨rfl, rfl, rfl, rfl⟩
  | cons o rest ih =>
    intro res calls sleeps errLogs hri hrs hall
    obtain ⟨c, b, rfl, hbi, hbs⟩ := hall o (List.mem_cons_self o rest)
    have hdi : (decodeInto res b).instrumental = false := by
      cases hb : b.instrumental with
      | none => simpa [decodeInto, hb] using hri
      | some v =>
        have hv : v = false := by simpa [hb] using hbi
        simp [decodeInto, hb, hv]
    have hds : (decodeInto res b).syncedLyrics = "" := by
      cases hb : b.syncedLyrics with
      | none => simpa [decodeInto, hb] using hrs
      | some v =>
        have hv : v = "" := by simpa [hb] using hbs
        simp [decodeInto, hb, hv]
    simp only [Part000.retrieveLoop, hdi, hds, ne_eq, not_true_eq_false, if_false,
      Bool.false_eq_true]
    have := ih (decodeInto res b) (calls + 1) sleeps errLogs hdi hds
      (fun o ho => hall o (List.mem_cons_of_mem _ ho))
    refine ⟨this.1, ?_, this.2.2.1, this.2.2.2⟩
    rw [this.2.1, List.length_cons]
    omega

/-- C2 amended: three successful responses with decoded instrumental
false and decoded syncedLyrics empty yield the exhaustion error after
exactly three network calls and zero inter-attempt delays — the
fall-through branch of the loop does not sleep; the one-second sleep
belongs to the error branch only. -/
theorem c2_amended_exhausted_zero_delays (artist album track : String) (d : ℤ)
    (client : Nat → ClientOutcome)
    (h : ∀ i, i < 3 → ∃ c b, client i = ClientOutcome.success c b ∧
        b.instrumental.getD false = false ∧ b.syncedLyrics.getD "" = "") :
    (Part000.retrieveLyrics artist album track d client).err = some (exhaustedMsg 3) ∧
    (Part000.retrieveLyrics artist album track d client).calls = 3 ∧
    (Part000.retrieveLyrics artist album track d client).sleeps = 0 := by
  have key := retrieveLoop_all_nonconclusive artist album track
    (lookupQuery artist album track d) [client 0, client 1, client 2]
    ApiResponse.zero 0 0 0 rfl rfl ?_
  · exact ⟨key.1, key.2.1, key.2.2.1⟩
  · intro o ho
    simp only [List.mem_cons, List.not_mem_nil, or_false] at ho
    rcases ho with rfl | rfl | rfl
    · exact h 0 (by norm_num)
    · exact h 1 (by norm_num)
    · exact h 2 (by norm_num)

/-- Witness for C2 amended: three concrete empty successes. -/
theorem c2_amended_exhausted_zero_delays_witness :
    (Part000.retrieveLyrics "Artist" "Album" "Track" 0
        (fun _ => ClientOutcome.success 200 {})).err = some (exhaustedMsg 3) ∧
    (Part000.retrieveLyrics "Artist" "Album" "Track" 0
        (fun _ => ClientOutcome.success 200 {})).calls = 3 ∧
    (Part000.retrieveLyrics "Artist" "Album" "Track" 0
        (fun _ => ClientOutcome.success 200 {})).sleeps = 0 :=
  c2_amended_exhausted_zero_delays "Artist" "Album" "Track" 0
    (fun _ => ClientOutcome.success 200 {})
    (fun _ _ => ⟨200, {}, rfl, rfl, rfl⟩)

/-- C6 evaluated at the failing input: three transport-level failures
in a row.  The error branch of the loop sleeps unconditionally, so a
one-second sleep is executed after the third and final attempt as well,
for three sleeps in total, before the exhaustion error is returned —
even the debug line announcing a retry is emitted although no further
attempt follows.  The claim (and the spec) say the last attempt must
not sleep, which would give two sleeps. -/
theorem c6_sleeps_after_final_attempt :
    (Part000.retrieveLyrics "Artist" "Album" "Track" 0
        (fun _ => ClientOutcome.failure 0 "connection refused")).sleeps = 3 ∧
    (Part000.retrieveLyrics "Artist" "Album" "Track" 0
        (fun _ => ClientOutcome.failure 0 "connection refused")).calls = 3 ∧
    (Part000.retrieveLyrics "Artist" "Album" "Track" 0
        (fun _ => ClientOutcome.failure 0 "connection refused")).err
      = some (exhaustedMsg 3) ∧
    (Part000.retrieveLyrics "Artist" "Album" "Track" 0
        (fun _ => ClientOutcome.failure 0 "connection refused")).sleeps ≠ 2 := by
  decide

/-- C7: a successful first response whose decoded instrumental flag is
true returns the instrumental outcome immediately — empty lyrics with a
nil error — after exactly one network call and no sleep, for every body,
in particular also when syncedLyrics is non-empty. -/
theorem c7_instrumental_immediate (artist album track : String) (d : ℤ)
    (client : Nat → ClientOutcome) (code : Nat) (body : ApiBody)
    (h : client 0 = ClientOutcome.success code body)
    (hins : (decodeInto ApiResponse.zero body).instrumental = true) :
    (Part000.retrieveLyrics artist album track d client).lyrics = "" ∧
    (Part000.retrieveLyrics artist album track d client).err = none ∧
    (Part000.retrieveLyrics artist album track d client).calls = 1 ∧
    (Part000.retrieveLyrics artist album track d client).sleeps = 0 := by
  simp [Part000.retrieveLyrics, Part000.retrieveLoop, h, hins]

/-- Witness for C7: an instrumental response that also carries
non-empty synced lyrics is still answered with empty lyrics. -/
theorem c7_instrumental_immediate_witness :
    (Part000.retrieveLyrics "Artist" "Album" "Track" 0
        (fun _ => ClientOutcome.success 200
          { instrumental := some true, syncedLyrics := some "[00:01.00] la la" })).lyrics = "" ∧
    (Part000.retrieveLyrics "Artist" "Album" "Track" 0
        (fun _ => ClientOutcome.success 200
          { instrumental := some true, syncedLyrics := some "[00:01.00] la la" })).err = none ∧
    (Part000.retrieveLyrics "Artist" "Album" "Track" 0
        (fun _ => ClientOutcome.success 200
          { instrumental := some true, syncedLyrics := some "[00:01.00] la la" })).calls = 1 ∧
    (Part000.retrieveLyrics "Artist" "Album" "Track" 0
        (fun _ => ClientOutcome.success 200
          { instrumental := some true, syncedLyrics := some "[00:01.00] la la" })).sleeps = 0 :=
  c7_instrumental_immediate "Artist" "Album" "Track" 0
    (fun _ => ClientOutcome.success 200
      { instrumental := some true, syncedLyrics := some "[00:01.00] la la" })
    200 { instrumental := some true, syncedLyrics := some "[00:01.00] la la" } rfl rfl

/-- C8 as stated is false on the code: under the stated Lookup Client
contract a 500 response arrives with a nil error, and the policy then
neither logs nor sleeps — it classifies the parsed body like any
success and silently falls through — whereas an actual transport-level
failure in the same position produces one error log and one sleep.  The
two treatments are observably different. -/
theorem c8_counterexample_500_not_like_transport :
    (Part000.retrieveLyrics "Artist" "Album" "Track" 0
        (fun i => if i = 0 then ClientOutcome.success 500 {}
                  else ClientOutcome.success 200 {})).sleeps = 0 ∧
    (Part000.retrieveLyrics "Artist" "Album" "Track" 0
        (fun i => if i = 0 then ClientOutcome.success 500 {}
                  else ClientOutcome.success 200 {})).errLogs = 0 ∧
    (Part000.retrieveLyrics "Artist" "Album" "Track" 0
        (fun i => if i = 0 then ClientOutcome.failure 0 "dial tcp: i/o timeout"
                  else ClientOutcome.success 200 {})).sleeps = 1 ∧
    (Part000.retrieveLyrics "Artist" "Album" "Track" 0
        (fun i => if i = 0 then ClientOutcome.failure 0 "dial tcp: i/o timeout"
                  else ClientOutcome.success 200 {})).errLogs = 1 := by
  decide

/-- C8 amended: on the nil-error path the retrying variant never
inspects the status code at all — the whole run is unchanged when the
status code of a successful outcome is replaced by any other, so a
non-2xx response with a nil error is classified purely by its parsed
body, with no log and no sleep on fall-through. -/
theorem c8_amended_status_ignored_on_success (artist album track : String)
    (query : List (String × String)) (code othercode : Nat) (b : ApiBody)
    (rest : List ClientOutcome) (res : ApiResponse) (calls sleeps errLogs : Nat) :
    Part000.retrieveLoop artist album track query
        (ClientOutcome.success code b :: rest) res calls sleeps errLogs
      = Part000.retrieveLoop artist album track query
        (ClientOutcome.success othercode b :: rest) res calls sleeps errLogs := rfl

/-- C9 as stated is false on the code: the main.go variant, which does
not special-case 404, does not retry either — a 404 outcome (whether
surfaced as a nil-error response with status 404 or as a non-nil client
error) produces exactly one network call and an error return. -/
theorem c9_counterexample_no_retry_in_main :
    (MainGo.retrieveLyrics "Artist" "Album" "Track" 0
        (ClientOutcome.success 404 {})).calls = 1 ∧
    (MainGo.retrieveLyrics "Artist" "Album" "Track" 0
        (ClientOutcome.success 404 {})).err = some (MainGo.nonPositiveMsg 404) ∧
    (MainGo.retrieveLyrics "Artist" "Album" "Track" 0
        (ClientOutcome.failure 404 "not found")).calls = 1 ∧
    (MainGo.retrieveLyrics "Artist" "Album" "Track" 0
        (ClientOutcome.failure 404 "not found")).err
      = some (MainGo.failMsg "not found" 404) := by
  decide

/-- C9 amended: the main.go variant has no retry loop — every
invocation makes exactly one network call, and a 404, like any status
other than 200 and any client error, is returned as an error after that
single call. -/
theorem c9_amended_single_call (artist album track : String) (d : ℤ)
    (o : ClientOutcome) :
    (MainGo.retrieveLyrics artist album track d o).calls = 1 ∧
    (∀ b, o = ClientOutcome.success 404 b →
        (MainGo.retrieveLyrics artist album track d o).err
          = some (MainGo.nonPositiveMsg 404)) ∧
    (∀ m, o = ClientOutcome.failure 404 m →
        (MainGo.retrieveLyrics artist album track d o).err
          = some (MainGo.failMsg m 404)) := by
  refine ⟨?_, ?_, ?_⟩
  · cases o with
    | failure code msg => rfl
    | success code body =>
      by_cases h : code = 200 <;> simp [MainGo.retrieveLyrics, h]
  · intro b hb
    subst hb
    simp [MainGo.retrieveLyrics]
  · intro m hm
    subst hm
    rfl

/-- Witness for C9 amended: the concrete 404 status outcome. -/
theorem c9_amended_single_call_witness :
    (MainGo.retrieveLyrics "Art" "Alb" "Trk" 0 (ClientOutcome.success 404 {})).calls = 1 ∧
    (MainGo.retrieveLyrics "Art" "Alb" "Trk" 0 (ClientOutcome.success 404 {})).err
      = some (MainGo.nonPositiveMsg 404) :=
  ⟨(c9_amended_single_call "Art" "Alb" "Trk" 0 (ClientOutcome.success 404 {})).1,
   (c9_amended_single_call "Art" "Alb" "Trk" 0 (ClientOutcome.success 404 {})).2.1 {} rfl⟩

/-- C3 as stated is false on the code: res is allocated once before the
loop and reused, and Go JSON decoding leaves absent fields untouched,
so a field deserialized on attempt one (here plainLyrics) is still
present in the res object handed to the later attempts and to their
classification, while a fresh construction from the later response
alone would leave it empty. -/
theorem c3_counterexample_field_persists :
    (Part000.retrieveLyrics "Artist" "Album" "Track" 0
        (fun i => if i = 0 then ClientOutcome.success 200 { plainLyrics := some "stale" }
                  else ClientOutcome.success 200 {})).res.plainLyrics = "stale" ∧
    (Part000.retrieveLyricsFresh "Artist" "Album" "Track" 0
        (fun i => if i = 0 then ClientOutcome.success 200 { plainLyrics := some "stale" }
                  else ClientOutcome.success 200 {})).res.plainLyrics = "" ∧
    ("stale" : String) ≠ "" := by
  decide

/-- Whenever the initial res is non-conclusive (instrumental false and
syncedLyrics empty — true of the fresh allocation and preserved by
every fall-through), the reused-res loop and the fresh-per-attempt loop
agree on everything the caller or the wall clock can observe: return
values, calls, sleeps and logs.  Only the res object itself can
differ. -/
theorem retrieveLoop_obs_eq_fresh (artist album track : String)
    (query : List (String × String)) :
    ∀ (outs : List ClientOutcome) (res res2 : ApiResponse) (calls sleeps errLogs : Nat),
      res.instrumental = false → res.syncedLyrics = "" →
      (Part000.retrieveLoop artist album track query outs res calls sleeps errLogs).obs
        = (Part000.retrieveLoopFresh artist album track query outs res2 calls sleeps errLogs).obs := by
  intro outs
  induction outs with
  | nil => intro res res2 calls sleeps errLogs _ _; rfl
  | cons o rest ih =>
    intro res res2 calls sleeps errLogs hri hrs
    cases o with
    | failure code msg =>
      by_cases h404 : code = 404
      · simp [Part000.retrieveLoop, Part000.retrieveLoopFresh, h404, RunResult.obs]
      · simp only [Part000.retrieveLoop, Part000.retrieveLoopFresh, if_neg h404]
        exact ih res res2 (calls + 1) (sleeps + 1) (errLogs + 1) hri hrs
    | success code body =>
      have hinstr : (decodeInto res body).instrumental
          = (decodeInto ApiResponse.zero body).instrumental := by
        simp [decodeInto, ApiResponse.zero, hri]
      have hsync : (decodeInto res body).syncedLyrics
          = (decodeInto ApiResponse.zero body).syncedLyrics := by
        simp [decodeInto, ApiResponse.zero, hrs]
      by_cases hI : (decodeInto ApiResponse.zero body).instrumental
      · simp [Part000.retrieveLoop, Part000.retrieveLoopFresh, hinstr, hI, RunResult.obs]
      · by_cases hS : (decodeInto ApiResponse.zero body).syncedLyrics = ""
        · simp only [Part000.retrieveLoop, Part000.retrieveLoopFresh, hinstr, hsync,
            Bool.not_eq_true] at hI ⊢
          simp only [hI, Bool.false_eq_true, if_false, hS, ne_eq, not_true_eq_false]
          exact ih (decodeInto res body) (decodeInto ApiResponse.zero body)
            (calls + 1) sleeps errLogs (hinstr.trans (by simp [hI])) (hsync.trans hS)
        · simp [Part000.retrieveLoop, Part000.retrieveLoopFresh, hinstr, hsync, hI, hS,
            RunResult.obs]

/-- C3 amended: the retrying variant reuses one res object across
attempts, but every observable of a run (both return values and the
numbers of calls, sleeps and error logs) coincides with those of the
variant that constructs the result fresh from each attempt response
alone, because the two classification fields are necessarily at their
zero values whenever a later attempt is reached. -/
theorem c3_amended_obs_eq_fresh (artist album track : String) (d : ℤ)
    (client : Nat → ClientOutcome) :
    (Part000.retrieveLyrics artist album track d client).obs
      = (Part000.retrieveLyricsFresh artist album track d client).obs :=
  retrieveLoop_obs_eq_fresh artist album track
    (lookupQuery artist album track d)
    [client 0, client 1, client 2] ApiResponse.zero ApiResponse.zero 0 0 0 rfl rfl

/-- C5 as stated is false on the code: two runs whose final (and only)
underlying errors differ return the very same exhaustion error, a
constant string mentioning only the attempt count, so the returned
error cannot carry the last error observed. -/
theorem c5_counterexample_error_not_carried :
    (Part000.retrieveLyrics "Artist" "Album" "Track" 0
        (fun _ => ClientOutcome.failure 500 "first cause")).err
      = (Part000.retrieveLyrics "Artist" "Album" "Track" 0
          (fun _ => ClientOutcome.failure 500 "second cause")).err ∧
    (Part000.retrieveLyrics "Artist" "Album" "Track" 0
        (fun _ => ClientOutcome.failure 500 "first cause")).err
      = some (exhaustedMsg 3) ∧
    ("first cause" : String) ≠ "second cause" := by
  decide

/-- The only error values the retry loop can ever return are nil, the
not-found message and the fixed exhaustion message. -/
theorem retrieveLoop_err_cases (artist album track : String)
    (query : List (String × String)) :
    ∀ (outs : List ClientOutcome) (res : ApiResponse) (calls sleeps errLogs : Nat),
      (Part000.retrieveLoop artist album track query outs res calls sleeps errLogs).err = none ∨
      (Part000.retrieveLoop artist album track query outs res calls sleeps errLogs).err
        = some (notFoundMsg artist track album) ∨
      (Part000.retrieveLoop artist album track query outs res calls sleeps errLogs).err
        = some (exhaustedMsg retries) := by
  intro outs
  induction outs with
  | nil => intro res calls sleeps errLogs; right; right; rfl
  | cons o rest ih =>
    intro res calls sleeps errLogs
    cases o with
    | failure code msg =>
      by_cases h404 : code = 404
      · right; left; simp [Part000.retrieveLoop, h404]
      · simp only [Part000.retrieveLoop, if_neg h404]
        exact ih _ _ _ _
    | success code body =>
      simp only [Part000.retrieveLoop]
      by_cases hins : (decodeInto res body).instrumental
      · left; simp [hins]
      · by_cases hs : (decodeInto res body).syncedLyrics = ""
        · simp only [if_neg hins, hs, ne_eq, not_true_eq_false, if_false,
            Bool.false_eq_true]
          exact ih _ _ _ _
        · left; simp [hins, hs]

/-- C5 amended: a run that exhausts its attempts returns the fixed
exhaustion error naming only the retry count — indeed no run of the
retrying variant ever returns any error other than nil, the not-found
message or that constant exhaustion message, so the last underlying
error is never part of the returned error (it is only logged). -/
theorem c5_amended_fixed_exhaustion_error (artist album track : String) (d : ℤ)
    (client : Nat → ClientOutcome) :
    (Part000.retrieveLyrics artist album track d client).err = none ∨
    (Part000.retrieveLyrics artist album track d client).err
      = some (notFoundMsg artist track album) ∨
    (Part000.retrieveLyrics artist album track d client).err
      = some (exhaustedMsg retries) :=
  retrieveLoop_err_cases artist album track (lookupQuery artist album track d)
    [client 0, client 1, client 2] ApiResponse.zero 0 0 0

/-- Any loop invocation returning a nil error returns empty lyrics
exactly when the classified res has the instrumental flag set, and a
non-empty lyrics return is exactly the syncedLyrics field of the
classified res. -/
theorem retrieveLoop_ok_shape (artist album track : String)
    (query : List (String × String)) :
    ∀ (outs : List ClientOutcome) (res : ApiResponse) (calls sleeps errLogs : Nat),
      (Part000.retrieveLoop artist album track query outs res calls sleeps errLogs).err = none →
      ((Part000.retrieveLoop artist album track query outs res calls sleeps errLogs).lyrics = ""
          ↔ (Part000.retrieveLoop artist album track query outs res calls sleeps errLogs).res.instrumental
              = true) ∧
      ((Part000.retrieveLoop artist album track query outs res calls sleeps errLogs).lyrics ≠ "" →
        (Part000.retrieveLoop artist album track query outs res calls sleeps errLogs).lyrics
          = (Part000.retrieveLoop artist album track query outs res calls sleeps
              errLogs).res.syncedLyrics) := by
  intro outs
  induction outs with
  | nil =>
    intro res calls sleeps errLogs h
    exact absurd h (by simp [Part000.retrieveLoop])
  | cons o rest ih =>
    intro res calls sleeps errLogs h
    cases o with
    | failure code msg =>
      by_cases h404 : code = 404
      · simp [Part000.retrieveLoop, h404] at h
      · simp only [Part000.retrieveLoop, if_neg h404] at h ⊢
        exact ih _ _ _ _ h
    | success code body =>
      by_cases hins : (decodeInto res body).instrumental
      · simp [Part000.retrieveLoop, hins]
      · by_cases hs : (decodeInto res body).syncedLyrics = ""
        · simp only [Part000.retrieveLoop, hins, Bool.false_eq_true, if_false, hs, ne_eq,
            not_true_eq_false] at h ⊢
          exact ih _ _ _ _ h
        · simp [Part000.retrieveLoop, hins, hs]

/-- C10: whenever the retrying variant returns with a nil error, the
returned lyrics string is empty exactly when the classified response
had the instrumental flag set, and every lyrics-found success returns
precisely the (necessarily non-empty) syncedLyrics field of the
classified response — so an empty string with a nil error is the only
signal of an instrumental track. -/
theorem c10_empty_iff_instrumental (artist album track : String) (d : ℤ)
    (client : Nat → ClientOutcome)
    (h : (Part000.retrieveLyrics artist album track d client).err = none) :
    ((Part000.retrieveLyrics artist album track d client).lyrics = ""
        ↔ (Part000.retrieveLyrics artist album track d client).res.instrumental = true) ∧
    ((Part000.retrieveLyrics artist album track d client).lyrics ≠ "" →
      (Part000.retrieveLyrics artist album track d client).lyrics
        = (Part000.retrieveLyrics artist album track d client).res.syncedLyrics) :=
  retrieveLoop_ok_shape artist album track (lookupQuery artist album track d)
    [client 0, client 1, client 2] ApiResponse.zero 0 0 0 h

/-- Witness for C10: a concrete instrumental run returns with a nil
error and the empty lyrics string, and the equivalence holds there. -/
theorem c10_empty_iff_instrumental_witness :
    ((Part000.retrieveLyrics "Artist" "Album" "Track" 0
        (fun _ => ClientOutcome.success 200 { instrumental := some true })).lyrics = ""
      ↔ (Part000.retrieveLyrics "Artist" "Album" "Track" 0
          (fun _ => ClientOutcome.success 200 { instrumental := some true })).res.instrumental
          = true) ∧
    ((Part000.retrieveLyrics "Artist" "Album" "Track" 0
        (fun _ => ClientOutcome.success 200 { instrumental := some true })).lyrics ≠ "" →
      (Part000.retrieveLyrics "Artist" "Album" "Track" 0
          (fun _ => ClientOutcome.success 200 { instrumental := some true })).lyrics
        = (Part000.retrieveLyrics "Artist" "Album" "Track" 0
            (fun _ => ClientOutcome.success 200 { instrumental := some true })).res.syncedLyrics) :=
  c10_empty_iff_instrumental "Artist" "Album" "Track" 0
    (fun _ => ClientOutcome.success 200 { instrumental := some true }) rfl

/-- Go truncation of the 125.9-second decoder value. -/
theorem gotrunc_1259over10 : gotrunc (1259 / 10 : ℚ) = 125 := by
  rw [gotrunc_of_nonneg _ (by norm_num)]
  norm_num

/-- songDuration evaluated at the 125.9-second decoder value: 125 whole
seconds in nanoseconds. -/
theorem songDuration_at_125p9 :
    songDuration "mp3" (1259 / 10 : ℚ) = Except.ok 125000000000 := by
  rw [show songDuration "mp3" (1259 / 10 : ℚ)
        = Except.ok (nsPerSecond * gotrunc (1259 / 10 : ℚ)) from rfl,
    gotrunc_1259over10]
  norm_num [nsPerSecond]

/-- C4 as stated is false on the code: a track whose decoder reports a
duration of 125.9 seconds is serialized as 125 — songDuration truncates
the float to whole seconds before retrieveLyrics formats it — whereas
rounding to the nearest whole second as the spec words demand would
serialize 126. -/
theorem c4_counterexample_truncation_not_rounding :
    songDuration "mp3" (1259 / 10 : ℚ) = Except.ok 125000000000 ∧
    List.lookup "duration"
        (Part000.retrieveLyrics "Artist" "Album" "Track" 125000000000
          (fun _ => ClientOutcome.success 200 {})).query = some "125" ∧
    specRoundedDuration (1259 / 10 : ℚ) = "126" ∧
    ("125" : String) ≠ "126" := by
  refine ⟨songDuration_at_125p9, ?_, ?_, by decide⟩
  · rw [retrieveLyrics_duration_entry,
      show (125000000000 : ℤ) = nsPerSecond * 125 from by norm_num [nsPerSecond],
      durationSecondsQ_whole, fmtDotZero_intCast]
    rfl
  · rw [specRoundedDuration, ratFloor_eq_floor,
      show ⌊(1259 / 10 : ℚ) + 1 / 2⌋ = 126 from by norm_num]
    rfl

/-- C4 amended: for every duration reported by the decoder (through
songDuration, any supported format) and passed to retrieveLyrics, the
duration parameter of the query is an integer string with zero decimal
places, non-negative whenever the decoder value is, but its value is
the decoder duration truncated toward zero to whole seconds (the
floor, for non-negative durations), not the rounded value. -/
theorem c4_amended_truncated_duration (format : String) (dur : ℚ) (d : ℤ)
    (artist album track : String) (client : Nat → ClientOutcome)
    (hd : songDuration format dur = Except.ok d) (hnn : 0 ≤ dur) :
    List.lookup "duration" (Part000.retrieveLyrics artist album track d client).query
      = some (toString ⌊dur⌋) ∧ 0 ≤ ⌊dur⌋ := by
  have hdd : d = nsPerSecond * gotrunc dur := songDuration_ok format dur d hd
  subst hdd
  rw [retrieveLyrics_duration_entry, gotrunc_of_nonneg dur hnn, durationSecondsQ_whole,
    fmtDotZero_intCast]
  exact ⟨rfl, Int.floor_nonneg.mpr hnn⟩

/-- Witness for C4 amended at the 125.9-second duration. -/
theorem c4_amended_truncated_duration_witness :
    (0 : ℚ) ≤ 1259 / 10 ∧
    List.lookup "duration"
        (Part000.retrieveLyrics "Artist" "Album" "Track" 125000000000
          (fun _ => ClientOutcome.success 200 {})).query
      = some (toString ⌊(1259 / 10 : ℚ)⌋) ∧ 0 ≤ ⌊(1259 / 10 : ℚ)⌋ :=
  ⟨by norm_num,
   (c4_amended_truncated_duration "mp3" (1259 / 10) 125000000000 "Artist" "Album" "Track"
      (fun _ => ClientOutcome.success 200 {}) songDuration_at_125p9 (by norm_num)).1,
   (c4_amended_truncated_duration "mp3" (1259 / 10) 125000000000 "Artist" "Album" "Track"
      (fun _ => ClientOutcome.success 200 {}) songDuration_at_125p9 (by norm_num)).2⟩
